import Mathlib

/-!
Verification of the Eloi3 UR10 kiosk system against its design document.

The development shallowly embeds the TypeScript sources of the repository:
the shared type package (packages/types/src/index.ts), the kiosk store
(apps/kiosk-ui/src/hooks/useKioskStore.ts), the jog screen
(apps/kiosk-ui/src/components/JogScreen.jsx) and the WebSocket provider
(apps/kiosk-ui/src/hooks/useWebSocket.jsx).  TypeScript numbers are
modelled as rationals, string-literal unions as inductive types, and
side-effecting actions as pure state transformers that also return the
list of HTTP requests they issue.  Components that live in the Python
robot server (apps/robot-server), which is not among the sources, are
modelled from the design document and are marked as such in their doc
comments.
-/

-- ===========================================================================
-- packages/types/src/index.ts : shared enumerations and records
-- ===========================================================================

/-- RobotConnectionState from packages/types/src/index.ts. -/
inductive RobotConnectionState
  | disconnected
  | connecting
  | connected
  | error
  deriving DecidableEq, Fintype, Repr

/-- RobotState from packages/types/src/index.ts (string-literal union). -/
inductive RobotState
  | IDLE
  | RUNNING
  | PAUSED
  | STOPPED
  | ERROR
  | EMERGENCY_STOP
  | PROTECTIVE_STOP
  | SAFEGUARD_STOP
  | VIOLATION
  | FAULT
  | BOOTING
  | POWER_OFF
  | POWER_ON
  | BACKDRIVE
  | UPDATING_FIRMWARE
  deriving DecidableEq, Fintype, Repr

/-- SafetyMode from packages/types/src/index.ts (string-literal union). -/
inductive SafetyMode
  | NORMAL
  | REDUCED
  | PROTECTIVE_STOP
  | RECOVERY
  | SAFEGUARD_STOP
  | SYSTEM_EMERGENCY_STOP
  | ROBOT_EMERGENCY_STOP
  | VIOLATION
  | FAULT
  | VALIDATE_JOINT_ID
  | UNDEFINED_SAFETY_MODE
  deriving DecidableEq, Fintype, Repr

/-- The listing of every RobotState variant, in source order. -/
def RobotState.variants : List RobotState :=
  [.IDLE, .RUNNING, .PAUSED, .STOPPED, .ERROR, .EMERGENCY_STOP, .PROTECTIVE_STOP,
   .SAFEGUARD_STOP, .VIOLATION, .FAULT, .BOOTING, .POWER_OFF, .POWER_ON,
   .BACKDRIVE, .UPDATING_FIRMWARE]

/-- The listing of every SafetyMode variant, in source order. -/
def SafetyMode.variants : List SafetyMode :=
  [.NORMAL, .REDUCED, .PROTECTIVE_STOP, .RECOVERY, .SAFEGUARD_STOP,
   .SYSTEM_EMERGENCY_STOP, .ROBOT_EMERGENCY_STOP, .VIOLATION, .FAULT,
   .VALIDATE_JOINT_ID, .UNDEFINED_SAFETY_MODE]

/-- Vector3D from packages/types/src/index.ts. -/
structure Vector3D where
  x : ℚ
  y : ℚ
  z : ℚ
  deriving DecidableEq, Repr

/-- Rotation3D from packages/types/src/index.ts. -/
structure Rotation3D where
  rx : ℚ
  ry : ℚ
  rz : ℚ
  deriving DecidableEq, Repr

/-- Pose6D from packages/types/src/index.ts (Vector3D plus Rotation3D). -/
structure Pose6D where
  x : ℚ
  y : ℚ
  z : ℚ
  rx : ℚ
  ry : ℚ
  rz : ℚ
  deriving DecidableEq, Repr

/-- JointPositions from packages/types/src/index.ts. -/
structure JointPositions where
  base : ℚ
  shoulder : ℚ
  elbow : ℚ
  wrist1 : ℚ
  wrist2 : ℚ
  wrist3 : ℚ
  deriving DecidableEq, Repr

/-- RobotTelemetry from packages/types/src/index.ts. -/
structure RobotTelemetry where
  timestamp : ℚ
  connectionState : RobotConnectionState
  robotState : RobotState
  safetyMode : SafetyMode
  tcpPosition : Pose6D
  jointPositions : JointPositions
  jointVelocities : JointPositions
  jointCurrents : JointPositions
  jointTemperatures : JointPositions
  isEmergencyStop : Bool
  isProtectiveStop : Bool
  isProgramRunning : Bool
  isRobotConnected : Bool
  currentProgram : Option String
  programState : Option String
  lastError : Option String
  errorCode : Option ℤ
  deriving DecidableEq, Repr

/-- JogMode from packages/types/src/index.ts. -/
inductive JogMode
  | tcp
  | joint
  deriving DecidableEq, Repr

/-- The axis field of JogRequest from packages/types/src/index.ts. -/
inductive JogAxis
  | x
  | y
  | z
  | rx
  | ry
  | rz
  | base
  | shoulder
  | elbow
  | wrist1
  | wrist2
  | wrist3
  deriving DecidableEq, Repr

/-- The direction field of JogRequest from packages/types/src/index.ts. -/
inductive JogDirection
  | positive
  | negative
  deriving DecidableEq, Repr

/-- JogRequest from packages/types/src/index.ts. -/
structure JogRequest where
  mode : JogMode
  axis : JogAxis
  direction : JogDirection
  distance : ℚ
  speed : ℚ
  acceleration : Option ℚ
  deriving DecidableEq, Repr

-- Chess types from packages/types/src/index.ts (carried by the kiosk store).

/-- ChessPiece from packages/types/src/index.ts. -/
inductive ChessPiece
  | pawn
  | rook
  | knight
  | bishop
  | queen
  | king
  deriving DecidableEq, Repr

/-- ChessColor from packages/types/src/index.ts. -/
inductive ChessColor
  | white
  | black
  deriving DecidableEq, Repr

/-- ChessPieceInfo from packages/types/src/index.ts; squares are strings. -/
structure ChessPieceInfo where
  piece : ChessPiece
  color : ChessColor
  square : String
  deriving DecidableEq, Repr

/-- ChessMove from packages/types/src/index.ts.  The TypeScript field
named from is a Lean keyword and is rendered fromSquare; to is rendered
toSquare. -/
structure ChessMove where
  fromSquare : String
  toSquare : String
  piece : ChessPiece
  captured : Option ChessPiece
  promotion : Option ChessPiece
  castling : Option String
  enPassant : Option Bool
  check : Option Bool
  checkmate : Option Bool
  stalemate : Option Bool
  san : String
  uci : String
  deriving DecidableEq, Repr

/-- GameMode from packages/types/src/index.ts. -/
inductive GameMode
  | human
  | engine
  deriving DecidableEq, Repr

/-- GameStatus from packages/types/src/index.ts. -/
inductive GameStatus
  | waiting
  | active
  | paused
  | finished
  | aborted
  deriving DecidableEq, Repr

/-- ChessGameState from packages/types/src/index.ts.  The winner, result
and terminal-cause fields are string-literal unions in the source and are
modelled as strings. -/
structure ChessGameState where
  gameId : String
  mode : GameMode
  status : GameStatus
  currentPlayer : ChessColor
  board : List (List (Option ChessPieceInfo))
  moves : List ChessMove
  fen : String
  pgn : String
  winner : Option String
  result : Option String
  terminalCause : Option String
  engineDepth : Option ℚ
  engineEvaluation : Option ℚ
  engineBestMove : Option String
  engineThinking : Option Bool
  robotExecuting : Option Bool
  lastRobotMove : Option ChessMove
  robotMoveQueue : List ChessMove
  deriving DecidableEq, Repr

-- WebSocket message types from packages/types/src/index.ts.

/-- WebSocketMessageType from packages/types/src/index.ts. -/
inductive WebSocketMessageType
  | telemetry
  | robot_status
  | chess_update
  | session_update
  | system_alert
  | error
  | ping
  | pong
  deriving DecidableEq, Fintype, Repr

/-- The listing of every WebSocketMessageType variant, in source order. -/
def WebSocketMessageType.variants : List WebSocketMessageType :=
  [.telemetry, .robot_status, .chess_update, .session_update, .system_alert,
   .error, .ping, .pong]

/-- WebSocketMessage from packages/types/src/index.ts: the generic
server-to-client envelope. -/
structure WebSocketMessage (T : Type) where
  type : WebSocketMessageType
  data : T
  timestamp : ℚ
  sessionId : Option String

-- Configuration records from packages/types/src/index.ts.

/-- RobotConnectionConfig from packages/types/src/index.ts. -/
structure RobotConnectionConfig where
  hostname : String
  port : ℚ
  timeout : ℚ
  retryAttempts : ℚ
  retryDelay : ℚ
  deriving DecidableEq, Repr

/-- SecurityConfig from packages/types/src/index.ts. -/
structure SecurityConfig where
  operatorPin : String
  supervisorPin : String
  adminPin : String
  autoLockEnabled : Bool
  autoLockTimeout : ℚ
  maxFailedAttempts : ℚ
  lockoutDuration : ℚ
  deriving DecidableEq, Repr

/-- InterfaceConfig from packages/types/src/index.ts; the theme union is
modelled as a string. -/
structure InterfaceConfig where
  theme : String
  language : String
  touchSensitivity : ℚ
  screenTimeout : ℚ
  showAdvancedControls : Bool
  enableSounds : Bool
  enableHapticFeedback : Bool
  deriving DecidableEq, Repr

/-- SystemConfig from packages/types/src/index.ts; the log-level union is
modelled as a string. -/
structure SystemConfig where
  mockMode : Bool
  debugMode : Bool
  logLevel : String
  telemetryInterval : ℚ
  heartbeatInterval : ℚ
  maxLogSize : ℚ
  backupEnabled : Bool
  backupInterval : ℚ
  deriving DecidableEq, Repr

/-- The workspace block of RobotParameters.safetyLimits. -/
structure WorkspaceLimits where
  min : Vector3D
  max : Vector3D
  deriving DecidableEq, Repr

/-- The jointLimits block of RobotParameters.safetyLimits. -/
structure JointLimits where
  min : JointPositions
  max : JointPositions
  deriving DecidableEq, Repr

/-- The safetyLimits block of RobotParameters. -/
structure SafetyLimits where
  workspace : WorkspaceLimits
  jointLimits : JointLimits
  deriving DecidableEq, Repr

/-- RobotParameters from packages/types/src/index.ts. -/
structure RobotParameters where
  maxSpeed : ℚ
  maxAcceleration : ℚ
  defaultSpeed : ℚ
  defaultAcceleration : ℚ
  jogDistance : ℚ
  jogSpeed : ℚ
  safetyLimits : SafetyLimits
  deriving DecidableEq, Repr

/-- KioskSettings from packages/types/src/index.ts. -/
structure KioskSettings where
  robot : RobotConnectionConfig
  security : SecurityConfig
  interface : InterfaceConfig
  system : SystemConfig
  robotParameters : RobotParameters
  deriving DecidableEq, Repr

/-- DEFAULT_ROBOT_CONFIG from packages/types/src/index.ts. -/
def DEFAULT_ROBOT_CONFIG : RobotConnectionConfig :=
  { hostname := "192.168.1.100"
    port := 30004
    timeout := 5000
    retryAttempts := 3
    retryDelay := 1000 }

/-- DEFAULT_SECURITY_CONFIG from packages/types/src/index.ts. -/
def DEFAULT_SECURITY_CONFIG : SecurityConfig :=
  { operatorPin := "1234"
    supervisorPin := "5678"
    adminPin := "9999"
    autoLockEnabled := true
    autoLockTimeout := 5
    maxFailedAttempts := 3
    lockoutDuration := 15 }

/-- DEFAULT_INTERFACE_CONFIG from packages/types/src/index.ts. -/
def DEFAULT_INTERFACE_CONFIG : InterfaceConfig :=
  { theme := "light"
    language := "en"
    touchSensitivity := 1
    screenTimeout := 30
    showAdvancedControls := false
    enableSounds := true
    enableHapticFeedback := true }

/-- DEFAULT_SYSTEM_CONFIG from packages/types/src/index.ts. -/
def DEFAULT_SYSTEM_CONFIG : SystemConfig :=
  { mockMode := true
    debugMode := false
    logLevel := "info"
    telemetryInterval := 100
    heartbeatInterval := 1000
    maxLogSize := 100
    backupEnabled := true
    backupInterval := 24 }

/-- DEFAULT_ROBOT_PARAMETERS from packages/types/src/index.ts.
Decimal literals of the source are written as fractions: 0.1 is 1/10,
0.5 is 1/2, 0.01 is 1/100. -/
def DEFAULT_ROBOT_PARAMETERS : RobotParameters :=
  { maxSpeed := 1
    maxAcceleration := 1
    defaultSpeed := 1/10
    defaultAcceleration := 1/2
    jogDistance := 1/100
    jogSpeed := 1/10
    safetyLimits :=
      { workspace :=
          { min := { x := -1, y := -1, z := 0 }
            max := { x := 1, y := 1, z := 1 } }
        jointLimits :=
          { min := { base := -360, shoulder := -360, elbow := -360,
                     wrist1 := -360, wrist2 := -360, wrist3 := -360 }
            max := { base := 360, shoulder := 360, elbow := 360,
                     wrist1 := 360, wrist2 := 360, wrist3 := 360 } } } }

-- ===========================================================================
-- apps/kiosk-ui/src/hooks/useKioskStore.ts : the kiosk Zustand store
-- ===========================================================================

/-- The JSON bodies serialized by the store actions of useKioskStore.ts. -/
inductive RequestBody
  | connectBody (hostname : String) (port : ℚ)
  | jogBody (req : JogRequest)
  | stopBody (emergency : Bool)
  | chessMoveBody (move : String) (executeWithRobot : Bool)
  deriving DecidableEq, Repr

/-- The shape of a fetch call issued by a store action: URL, method, the
X-Session-ID header when present, and the JSON body when present. -/
structure HttpRequest where
  url : String
  method : String
  sessionHeader : Option String
  body : Option RequestBody
  deriving DecidableEq, Repr

/-- The environment of a store action: a fetch either throws (network
failure, caught by the catch block) or responds with an ok flag. -/
inductive FetchOutcome
  | thrown
  | respond (ok : Bool)
  deriving DecidableEq, Repr

/-- API_BASE in the development branch of useKioskStore.ts. -/
def API_BASE : String := "http://localhost:8000"

/-- KioskStore state fields from useKioskStore.ts.  The engineStatus
field is typed any in the source and is modelled as an uninterpreted
optional string payload. -/
structure KioskStore where
  sessionId : Option String
  isLocked : Bool
  isSupervisor : Bool
  robotConnected : Bool
  robotState : RobotState
  telemetry : Option RobotTelemetry
  currentScreen : String
  isFullscreen : Bool
  showDebugInfo : Bool
  boardState : Option ChessGameState
  engineStatus : Option String
  settings : KioskSettings
  deriving DecidableEq, Repr

/-- The initial state passed to create() in useKioskStore.ts. -/
def initialStore : KioskStore :=
  { sessionId := none
    isLocked := true
    isSupervisor := false
    robotConnected := false
    robotState := .IDLE
    telemetry := none
    currentScreen := "dashboard"
    isFullscreen := false
    showDebugInfo := false
    boardState := none
    engineStatus := none
    settings :=
      { robot := DEFAULT_ROBOT_CONFIG
        security := DEFAULT_SECURITY_CONFIG
        interface := DEFAULT_INTERFACE_CONFIG
        system := DEFAULT_SYSTEM_CONFIG
        robotParameters := DEFAULT_ROBOT_PARAMETERS } }

/-- The unlock action of useKioskStore.ts: compare the pin against the
operator pin, then against the supervisor pin, and update the lock and
supervisor flags accordingly; any other pin is rejected with no state
change.  Returns the boolean result together with the new store. -/
def unlock (pin : String) (st : KioskStore) : Bool × KioskStore :=
  if pin = st.settings.security.operatorPin then
    (true, { st with isLocked := false, isSupervisor := false })
  else if pin = st.settings.security.supervisorPin then
    (true, { st with isLocked := false, isSupervisor := true })
  else
    (false, st)

/-- The lock action of useKioskStore.ts. -/
def lock (st : KioskStore) : KioskStore :=
  { st with isLocked := true, isSupervisor := false }

/-- The updateTelemetry action of useKioskStore.ts: store the sample and
mirror its robotState and isRobotConnected fields into the store. -/
def updateTelemetry (t : RobotTelemetry) (st : KioskStore) : KioskStore :=
  { st with
    telemetry := some t
    robotState := t.robotState
    robotConnected := t.isRobotConnected }

/-- A Partial KioskSettings argument of updateSettings: an optional
replacement per top-level section, matching the shallow object spread of
the source. -/
structure SettingsPatch where
  robot : Option RobotConnectionConfig := none
  security : Option SecurityConfig := none
  interface : Option InterfaceConfig := none
  system : Option SystemConfig := none
  robotParameters : Option RobotParameters := none

/-- The updateSettings action of useKioskStore.ts: shallow-merge the
patch over the current settings. -/
def updateSettings (p : SettingsPatch) (st : KioskStore) : KioskStore :=
  { st with settings :=
      { robot := p.robot.getD st.settings.robot
        security := p.security.getD st.settings.security
        interface := p.interface.getD st.settings.interface
        system := p.system.getD st.settings.system
        robotParameters := p.robotParameters.getD st.settings.robotParameters } }

/-- JavaScript truthiness fallback for an optional string argument, as in
hostname or settings.robot.hostname: undefined and the empty string both
fall back to the default. -/
def jsOrString (v : Option String) (dflt : String) : String :=
  match v with
  | none => dflt
  | some s => if s = "" then dflt else s

/-- JavaScript truthiness fallback for an optional numeric argument:
undefined and zero both fall back to the default. -/
def jsOrNum (v : Option ℚ) (dflt : ℚ) : ℚ :=
  match v with
  | none => dflt
  | some q => if q = 0 then dflt else q

/-- The connectRobot action of useKioskStore.ts.  If no session id is
held the action returns false without issuing a request; otherwise it
POSTs to /api/v1/robot/connect and on an ok response marks the robot
connected.  The result is the returned boolean, the new store, and the
requests issued. -/
def connectRobot (hostname : Option String) (port : Option ℚ)
    (out : FetchOutcome) (st : KioskStore) : Bool × KioskStore × List HttpRequest :=
  match st.sessionId with
  | none => (false, st, [])
  | some sid =>
    let req : HttpRequest :=
      { url := API_BASE ++ "/api/v1/robot/connect"
        method := "POST"
        sessionHeader := some sid
        body := some (.connectBody (jsOrString hostname st.settings.robot.hostname)
                                   (jsOrNum port st.settings.robot.port)) }
    match out with
    | .thrown => (false, st, [req])
    | .respond ok =>
      if ok then (true, { st with robotConnected := true }, [req])
      else (false, st, [req])

/-- The disconnectRobot action of useKioskStore.ts: POST to
/api/v1/robot/disconnect; on an ok response clear the connected flag and
reset robotState to IDLE. -/
def disconnectRobot (out : FetchOutcome) (st : KioskStore) :
    Bool × KioskStore × List HttpRequest :=
  match st.sessionId with
  | none => (false, st, [])
  | some sid =>
    let req : HttpRequest :=
      { url := API_BASE ++ "/api/v1/robot/disconnect"
        method := "POST"
        sessionHeader := some sid
        body := none }
    match out with
    | .thrown => (false, st, [req])
    | .respond ok =>
      if ok then (true, { st with robotConnected := false, robotState := .IDLE }, [req])
      else (false, st, [req])

/-- The homeRobot action of useKioskStore.ts: POST to /api/v1/robot/home
and return response.ok; no store update. -/
def homeRobot (out : FetchOutcome) (st : KioskStore) :
    Bool × KioskStore × List HttpRequest :=
  match st.sessionId with
  | none => (false, st, [])
  | some sid =>
    let req : HttpRequest :=
      { url := API_BASE ++ "/api/v1/robot/home"
        method := "POST"
        sessionHeader := some sid
        body := none }
    match out with
    | .thrown => (false, st, [req])
    | .respond ok => (ok, st, [req])

/-- The jogRobot action of useKioskStore.ts: POST the serialized jog
request to /api/v1/robot/jog and return response.ok; no store update. -/
def jogRobot (jogReq : JogRequest) (out : FetchOutcome) (st : KioskStore) :
    Bool × KioskStore × List HttpRequest :=
  match st.sessionId with
  | none => (false, st, [])
  | some sid =>
    let req : HttpRequest :=
      { url := API_BASE ++ "/api/v1/robot/jog"
        method := "POST"
        sessionHeader := some sid
        body := some (.jogBody jogReq) }
    match out with
    | .thrown => (false, st, [req])
    | .respond ok => (ok, st, [req])

/-- The stopRobot action of useKioskStore.ts: POST to /api/v1/robot/stop
and return response.ok; no store update. -/
def stopRobot (out : FetchOutcome) (st : KioskStore) :
    Bool × KioskStore × List HttpRequest :=
  match st.sessionId with
  | none => (false, st, [])
  | some sid =>
    let req : HttpRequest :=
      { url := API_BASE ++ "/api/v1/robot/stop"
        method := "POST"
        sessionHeader := some sid
        body := none }
    match out with
    | .thrown => (false, st, [req])
    | .respond ok => (ok, st, [req])

/-- The emergencyStop action of useKioskStore.ts: POST an emergency body
to /api/v1/robot/estop and return response.ok; no store update. -/
def emergencyStop (out : FetchOutcome) (st : KioskStore) :
    Bool × KioskStore × List HttpRequest :=
  match st.sessionId with
  | none => (false, st, [])
  | some sid =>
    let req : HttpRequest :=
      { url := API_BASE ++ "/api/v1/robot/estop"
        method := "POST"
        sessionHeader := some sid
        body := some (.stopBody true) }
    match out with
    | .thrown => (false, st, [req])
    | .respond ok => (ok, st, [req])

/-- The chessMove action of useKioskStore.ts: POST the concatenated UCI
move with executeWithRobot set to /api/chess/games/current/moves and
return response.ok; no store update. -/
def chessMove (fromSquare toSquare : String) (promotion : Option String)
    (out : FetchOutcome) (st : KioskStore) : Bool × KioskStore × List HttpRequest :=
  match st.sessionId with
  | none => (false, st, [])
  | some sid =>
    let req : HttpRequest :=
      { url := API_BASE ++ "/api/chess/games/current/moves"
        method := "POST"
        sessionHeader := some sid
        body := some (.chessMoveBody (fromSquare ++ toSquare ++ promotion.getD "") true) }
    match out with
    | .thrown => (false, st, [req])
    | .respond ok => (ok, st, [req])

-- ===========================================================================
-- apps/kiosk-ui/src/components/JogScreen.jsx : the jog handler
-- ===========================================================================

/-- The jog request object literal built by handleJog in JogScreen.jsx:
mode, speed and frame are always set, then either axis or joint is set
together with the signed delta. -/
structure JogScreenRequest where
  mode : JogMode
  speed : ℚ
  frame : String
  axis : Option String
  joint : Option ℕ
  delta : ℚ
  deriving DecidableEq, Repr

/-- The component-local state read by handleJog in JogScreen.jsx:
robotConnected and robotState come from the store (robotState is
compared against a string literal in the untyped JSX and is modelled as
a string), jogMode, jogSpeed and jogDistance are the local useState
values (sliders hold singleton arrays; the head is modelled). -/
structure JogScreenState where
  robotConnected : Bool
  robotState : String
  jogMode : JogMode
  jogSpeed : ℚ
  jogDistance : ℚ
  deriving DecidableEq, Repr

/-- The handleJog function of JogScreen.jsx.  It returns early with no
request unless the robot is connected and its state is READY; otherwise
it computes delta as the selected jog distance times the signed
direction and awaits jogRobot exactly once with the built request.  The
returned list is the sequence of jogRobot calls made. -/
def handleJog (st : JogScreenState) (axis : String) (direction : ℤ)
    (joint : Option ℕ) : List JogScreenRequest :=
  if st.robotConnected = false ∨ st.robotState ≠ "READY" then
    []
  else
    let delta : ℚ := st.jogDistance * (direction : ℚ)
    match st.jogMode with
    | .tcp =>
      [{ mode := st.jogMode, speed := st.jogSpeed, frame := "base"
         axis := some axis, joint := none, delta := delta }]
    | .joint =>
      [{ mode := st.jogMode, speed := st.jogSpeed, frame := "base"
         axis := none, joint := joint, delta := delta }]

/-- Modelled from the spec: the robot server (apps/robot-server, absent
from the sources) computes the requested jog target by offsetting the
current TCP pose along the requested Cartesian axis by the signed delta
(section 8 scenario: jog x+ by 0.01 m from a known pose yields the pose
with x increased by 0.01). -/
def jogTarget (pose : Pose6D) (axis : String) (delta : ℚ) : Pose6D :=
  if axis = "x" then { pose with x := pose.x + delta }
  else if axis = "y" then { pose with y := pose.y + delta }
  else if axis = "z" then { pose with z := pose.z + delta }
  else if axis = "rx" then { pose with rx := pose.rx + delta }
  else if axis = "ry" then { pose with ry := pose.ry + delta }
  else if axis = "rz" then { pose with rz := pose.rz + delta }
  else pose

-- ===========================================================================
-- apps/kiosk-ui/src/hooks/useWebSocket.jsx : reconnect scheduling
-- ===========================================================================

/-- The four WebSocket subscriber channels opened by WebSocketProvider. -/
inductive WsEndpoint
  | telemetry
  | alerts
  | job
  | analysis
  deriving DecidableEq, Fintype, Repr

/-- The per-channel connection status values written by
WebSocketProvider into connectionStatus. -/
inductive ChannelStatus
  | connected
  | disconnected
  | reconnecting
  | error
  | failed
  deriving DecidableEq, Repr

/-- maxReconnectAttempts in useWebSocket.jsx. -/
def maxReconnectAttempts : ℕ := 5

/-- reconnectDelay in useWebSocket.jsx (milliseconds, the backoff base). -/
def reconnectDelay : ℕ := 1000

/-- The per-channel reconnect bookkeeping of WebSocketProvider: the
reconnectAttempts counter and the connectionStatus entry for one
endpoint. -/
structure ReconnectState where
  attempts : ℕ
  status : ChannelStatus
  deriving DecidableEq, Repr

/-- The scheduleReconnect function of useWebSocket.jsx for one channel.
If the attempt counter has reached maxReconnectAttempts the status is
set to failed and no timer is armed; otherwise the status is set to
reconnecting and a timer is armed after reconnectDelay times 2 to the
power of the current attempt count.  The optional result is the armed
delay in milliseconds. -/
def scheduleReconnect (st : ReconnectState) : ReconnectState × Option ℕ :=
  if maxReconnectAttempts ≤ st.attempts then
    ({ st with status := .failed }, none)
  else
    ({ st with status := .reconnecting }, some (reconnectDelay * 2 ^ st.attempts))

/-- The body of the timer armed by scheduleReconnect: it increments the
attempt counter and opens a fresh connection. -/
def reconnectTimerFire (st : ReconnectState) : ReconnectState :=
  { st with attempts := st.attempts + 1 }

/-- The manual reconnect function of useWebSocket.jsx for one channel:
it closes the old socket, resets the attempt counter to zero and opens a
fresh connection. -/
def manualReconnect (st : ReconnectState) : ReconnectState :=
  { st with attempts := 0 }

/-- The channel map held by WebSocketProvider: a reconnect state per
endpoint. -/
def WsChannels : Type := WsEndpoint → ReconnectState

/-- scheduleReconnect applied to the state of one endpoint of the
channel map, leaving every other endpoint untouched. -/
def scheduleReconnectAt (chs : WsChannels) (ep : WsEndpoint) :
    WsChannels × Option ℕ :=
  let r := scheduleReconnect (chs ep)
  (fun e => if e = ep then r.1 else chs e, r.2)

/-- The manual reconnect applied to the state of one endpoint of the
channel map, leaving every other endpoint untouched. -/
def manualReconnectAt (chs : WsChannels) (ep : WsEndpoint) : WsChannels :=
  fun e => if e = ep then manualReconnect (chs ep) else chs e

-- ===========================================================================
-- apps/robot-server (absent from the sources): MotionExecutor safety gate
-- and SessionGate, modelled from the design document
-- ===========================================================================

/-- Error kinds of the MotionExecutor, from section 7 of the design
document. -/
inductive ExecError
  | safetyViolation
  | workspaceLimitExceeded
  | jointLimitExceeded
  | busy
  deriving DecidableEq, Repr

/-- The commands accepted by the MotionExecutor, from section 4.3 of the
design document. -/
inductive MotionCommand
  | jog (axis : JogAxis) (direction : JogDirection) (distance speed : ℚ)
  | move (target : Pose6D) (speed accel blendRadius : ℚ)
  | home (speed accel : ℚ)
  | stop (emergency : Bool)
  deriving DecidableEq, Repr

/-- Whether a command is one of the stop commands, which are exempt from
the safety gate. -/
def MotionCommand.isStop : MotionCommand → Bool
  | .stop _ => true
  | _ => false

/-- The outcome of submitting a command to the MotionExecutor: either it
is transmitted to the ConnectionManager or it is rejected locally. -/
inductive ExecOutcome
  | transmitted (cmd : MotionCommand)
  | rejected (err : ExecError)
  deriving DecidableEq, Repr

/-- Modelled from the spec: the SafetyStateMachine gate of the robot
server (apps/robot-server, absent from the sources).  Invariant (a) of
section 3: no motion command reaches the ConnectionManager unless
SafetyMode is NORMAL or REDUCED and RobotState is none of
EMERGENCY_STOP, PROTECTIVE_STOP, FAULT, ERROR. -/
def gateOpen (sm : SafetyMode) (rs : RobotState) : Bool :=
  (sm == .NORMAL || sm == .REDUCED) &&
  !(rs == .EMERGENCY_STOP || rs == .PROTECTIVE_STOP || rs == .FAULT || rs == .ERROR)

/-- The emergency-stop family of safety modes referred to by section 8
of the design document: the hard-veto modes of section 3. -/
def emergencyStopFamily (sm : SafetyMode) : Bool :=
  sm == .SYSTEM_EMERGENCY_STOP || sm == .ROBOT_EMERGENCY_STOP

/-- Modelled from the spec: command admission of the MotionExecutor
(apps/robot-server, absent from the sources), section 4.3 steps 1 and 4:
stop commands are always accepted and bypass the gate; every other
command is rejected with SafetyViolation while the gate is closed.  The
workspace- and joint-limit validation of step 2 applies after the gate
and only to gate-open commands, so it is immaterial to the safety-gate
claims settled here and is not modelled. -/
def executeCommand (sm : SafetyMode) (rs : RobotState) (cmd : MotionCommand) :
    ExecOutcome :=
  match cmd with
  | .stop e => .transmitted (.stop e)
  | c => if gateOpen sm rs then .transmitted c else .rejected .safetyViolation

/-- The controlling-flag cell content of the SessionGate: the id of the
holding session and its last-activity time. -/
structure ControlHolder where
  sessionId : String
  lastActivity : ℚ
  deriving DecidableEq, Repr

/-- Modelled from the spec: the SessionGate controlling-flag
(apps/robot-server, absent from the sources).  Section 5: a single
mutable cell guarded against concurrent acquisition races. -/
structure SessionGate where
  holder : Option ControlHolder
  deriving DecidableEq, Repr

/-- The result of an acquireControl call, from section 4.5 of the design
document. -/
inductive AcquireOutcome
  | ok
  | alreadyControlled
  deriving DecidableEq, Repr

/-- Modelled from the spec: acquireControl of the SessionGate
(apps/robot-server, absent from the sources).  Section 4.5: the call
fails with AlreadyControlled if another non-expired session holds
control (a session is expired once its inactivity exceeds the timeout);
otherwise the caller takes the flag.  Section 5 requires the
check-then-set to be one indivisible operation, so a concurrent batch of
calls is an arbitrary serialization of these atomic steps. -/
def acquireControl (timeout now : ℚ) (sid : String) (g : SessionGate) :
    AcquireOutcome × SessionGate :=
  match g.holder with
  | some h =>
    if h.sessionId ≠ sid ∧ now - h.lastActivity ≤ timeout then
      (.alreadyControlled, g)
    else
      (.ok, ⟨some ⟨sid, now⟩⟩)
  | none => (.ok, ⟨some ⟨sid, now⟩⟩)

/-- A race of concurrent acquireControl calls at one instant: by the
atomicity requirement of section 5 the calls execute as some
serialization; the list order is that serialization.  Returns the
outcome seen by each caller and the final gate state. -/
def acquireRace (timeout now : ℚ) (g : SessionGate) :
    List String → List AcquireOutcome × SessionGate
  | [] => ([], g)
  | sid :: rest =>
    let r := acquireControl timeout now sid g
    let rr := acquireRace timeout now r.2 rest
    (r.1 :: rr.1, rr.2)

/-- The set of sessions holding the controlling flag in a gate state:
the single cell yields at most one. -/
def SessionGate.holders (g : SessionGate) : List String :=
  match g.holder with
  | none => []
  | some h => [h.sessionId]

-- ===========================================================================
-- Helper lemmas
-- ===========================================================================

/-- Unfolding of the safety gate into the invariant wording of section 3
of the design document. -/
theorem gateOpen_true_iff (sm : SafetyMode) (rs : RobotState) :
    gateOpen sm rs = true ↔
      (sm = .NORMAL ∨ sm = .REDUCED) ∧
      rs ≠ .EMERGENCY_STOP ∧ rs ≠ .PROTECTIVE_STOP ∧ rs ≠ .FAULT ∧ rs ≠ .ERROR := by
  simp [gateOpen, not_or, and_assoc]

/-- While the safety mode is in the emergency-stop family the gate is
closed. -/
theorem emergency_family_gate_closed (sm : SafetyMode) (rs : RobotState)
    (h : emergencyStopFamily sm = true) : gateOpen sm rs = false := by
  simp only [emergencyStopFamily, Bool.or_eq_true, beq_iff_eq] at h
  rcases h with h | h <;> subst h <;> rfl

/-- A second session acquiring against a fresh holder fails, because the
holder is non-expired at the same instant. -/
theorem acquireControl_held_fails (timeout now : ℚ) (sid other : String)
    (hne : other ≠ sid) (ht : 0 ≤ timeout) :
    acquireControl timeout now other ⟨some ⟨sid, now⟩⟩ =
      (.alreadyControlled, ⟨some ⟨sid, now⟩⟩) := by
  show (if sid ≠ other ∧ now - now ≤ timeout then
          ((.alreadyControlled : AcquireOutcome), (⟨some ⟨sid, now⟩⟩ : SessionGate))
        else (.ok, ⟨some ⟨other, now⟩⟩)) =
       (.alreadyControlled, ⟨some ⟨sid, now⟩⟩)
  rw [if_pos ⟨Ne.symm hne, by simpa using ht⟩]

/-- Every caller of a same-instant race against a fresh holder fails. -/
theorem acquireRace_held_all_fail (timeout now : ℚ) (sid : String) (ht : 0 ≤ timeout) :
    ∀ (rest : List String), (∀ b ∈ rest, b ≠ sid) →
      acquireRace timeout now ⟨some ⟨sid, now⟩⟩ rest =
        (List.replicate rest.length .alreadyControlled, ⟨some ⟨sid, now⟩⟩)
  | [], _ => rfl
  | b :: rest, hb => by
    have h1 := acquireControl_held_fails timeout now sid b
      (hb b (List.mem_cons_self b rest)) ht
    have h2 := acquireRace_held_all_fail timeout now sid ht rest
      (fun x hx => hb x (List.mem_cons_of_mem b hx))
    simp [acquireRace, h1, h2, List.replicate_succ]

-- ===========================================================================
-- Claim theorems
-- ===========================================================================

/-- Claim C1: a motion command (jog, move, home) is transmitted to the
robot connection only if SafetyMode is NORMAL or REDUCED and RobotState
is none of EMERGENCY_STOP, PROTECTIVE_STOP, FAULT, ERROR; while
SafetyMode is in the emergency-stop family every command other than stop
is rejected with SafetyViolation, and stop is always accepted. -/
theorem safety_gate_policy :
    (∀ (sm : SafetyMode) (rs : RobotState) (cmd : MotionCommand),
       cmd.isStop = false →
       executeCommand sm rs cmd = .transmitted cmd →
       (sm = .NORMAL ∨ sm = .REDUCED) ∧
       rs ≠ .EMERGENCY_STOP ∧ rs ≠ .PROTECTIVE_STOP ∧ rs ≠ .FAULT ∧ rs ≠ .ERROR) ∧
    (∀ (sm : SafetyMode) (rs : RobotState) (cmd : MotionCommand),
       emergencyStopFamily sm = true → cmd.isStop = false →
       executeCommand sm rs cmd = .rejected .safetyViolation) ∧
    (∀ (sm : SafetyMode) (rs : RobotState) (e : Bool),
       executeCommand sm rs (.stop e) = .transmitted (.stop e)) := by
  refine ⟨?_, ?_, fun sm rs e => rfl⟩
  · intro sm rs cmd hstop htr
    rw [← gateOpen_true_iff]
    by_contra hg
    have hg' : gateOpen sm rs = false := by
      cases h : gateOpen sm rs
      · rfl
      · exact absurd h hg
    cases cmd <;> simp_all [executeCommand, MotionCommand.isStop]
  · intro sm rs cmd hfam hstop
    have hg := emergency_family_gate_closed sm rs hfam
    cases cmd <;> simp_all [executeCommand, MotionCommand.isStop]

/-- Claim C1 witness: concrete instances of the three parts, at a home
command transmitted in NORMAL/IDLE, a home command rejected in
ROBOT_EMERGENCY_STOP, and an always-accepted emergency stop. -/
theorem safety_gate_policy_witness :
    ((SafetyMode.NORMAL = SafetyMode.NORMAL ∨ SafetyMode.NORMAL = SafetyMode.REDUCED) ∧
      RobotState.IDLE ≠ RobotState.EMERGENCY_STOP ∧
      RobotState.IDLE ≠ RobotState.PROTECTIVE_STOP ∧
      RobotState.IDLE ≠ RobotState.FAULT ∧
      RobotState.IDLE ≠ RobotState.ERROR) ∧
    executeCommand .ROBOT_EMERGENCY_STOP .RUNNING (.home (1/10) (1/2)) =
      .rejected .safetyViolation ∧
    executeCommand .ROBOT_EMERGENCY_STOP .RUNNING (.stop true) =
      .transmitted (.stop true) :=
  ⟨safety_gate_policy.1 .NORMAL .IDLE (.home (1/10) (1/2)) rfl rfl,
   safety_gate_policy.2.1 .ROBOT_EMERGENCY_STOP .RUNNING (.home (1/10) (1/2)) rfl rfl,
   safety_gate_policy.2.2 .ROBOT_EMERGENCY_STOP .RUNNING true⟩

/-- Claim C2: the controlling flag is a single cell, so at most one
session holds it at any instant; and in a same-instant race of N
acquireControl calls from a state where nobody holds control, exactly
the first serialized call succeeds and every other call fails with
AlreadyControlled. -/
theorem single_controller_race :
    (∀ g : SessionGate, g.holders.length ≤ 1) ∧
    (∀ (timeout now : ℚ), 0 ≤ timeout →
      ∀ (sid : String) (rest : List String), sid ∉ rest →
        acquireRace timeout now ⟨none⟩ (sid :: rest) =
          (.ok :: List.replicate rest.length .alreadyControlled, ⟨some ⟨sid, now⟩⟩) ∧
        (acquireRace timeout now ⟨none⟩ (sid :: rest)).1.count .ok = 1) := by
  constructor
  · intro g
    rcases g with ⟨_ | h⟩ <;> simp [SessionGate.holders]
  · intro timeout now ht sid rest hmem
    have hfirst : acquireControl timeout now sid ⟨none⟩ = (.ok, ⟨some ⟨sid, now⟩⟩) := rfl
    have hrest := acquireRace_held_all_fail timeout now sid ht rest
      (fun b hb => by rintro rfl; exact hmem hb)
    have heq : acquireRace timeout now ⟨none⟩ (sid :: rest) =
        (.ok :: List.replicate rest.length .alreadyControlled, ⟨some ⟨sid, now⟩⟩) := by
      simp [acquireRace, hfirst, hrest]
    refine ⟨heq, ?_⟩
    rw [heq]
    simp [List.count_cons, List.count_replicate]

/-- Claim C2 witness: a race of three sessions at one instant, first
caller wins, both others refused. -/
theorem single_controller_race_witness :
    acquireRace 300 0 ⟨none⟩ ["a", "b", "c"] =
      (.ok :: List.replicate 2 .alreadyControlled, ⟨some ⟨"a", 0⟩⟩) ∧
    (acquireRace 300 0 ⟨none⟩ ["a", "b", "c"]).1.count .ok = 1 :=
  single_controller_race.2 300 0 (by norm_num) "a" ["b", "c"] (by decide)

/-- Claim C3 counterexample: SafetyMode does not have ten variants; the
source union has eleven members (VALIDATE_JOINT_ID is present and the
last variant is named UNDEFINED_SAFETY_MODE). -/
theorem safetyMode_card_ne_ten : Fintype.card SafetyMode ≠ 10 := by decide

/-- Claim C3 (amended): the SafetyMode enumeration consists of exactly
the eleven variants NORMAL, REDUCED, PROTECTIVE_STOP, RECOVERY,
SAFEGUARD_STOP, SYSTEM_EMERGENCY_STOP, ROBOT_EMERGENCY_STOP, VIOLATION,
FAULT, VALIDATE_JOINT_ID, UNDEFINED_SAFETY_MODE: the listing is
irredundant, has eleven entries, and exhausts the type. -/
theorem safetyMode_exactly_eleven_variants :
    SafetyMode.variants.Nodup ∧ SafetyMode.variants.length = 11 ∧
    ∀ m : SafetyMode, m ∈ SafetyMode.variants := by decide

/-- Claim C4 counterexample: RobotState does not have fourteen variants;
the source union has fifteen members. -/
theorem robotState_card_ne_fourteen : Fintype.card RobotState ≠ 14 := by decide

/-- Claim C4 (amended): the RobotState enumeration consists of exactly
the fifteen variants IDLE, RUNNING, PAUSED, STOPPED, ERROR,
EMERGENCY_STOP, PROTECTIVE_STOP, SAFEGUARD_STOP, VIOLATION, FAULT,
BOOTING, POWER_OFF, POWER_ON, BACKDRIVE, UPDATING_FIRMWARE: the listing
is irredundant, has fifteen entries, and exhausts the type. -/
theorem robotState_exactly_fifteen_variants :
    RobotState.variants.Nodup ∧ RobotState.variants.length = 15 ∧
    ∀ m : RobotState, m ∈ RobotState.variants := by decide

/-- Claim C5 counterexample: the WebSocket message type does not range
over exactly seven values; the source union has eight members, the
additional one being the error type. -/
theorem wsMessageType_card_ne_seven : Fintype.card WebSocketMessageType ≠ 7 := by
  decide

/-- Claim C5 (amended): every server-to-client WebSocket message is an
envelope with fields type, data, timestamp and optional sessionId, and
its type field ranges over exactly the eight values telemetry,
robot_status, chess_update, session_update, system_alert, error, ping,
pong. -/
theorem ws_envelope_eight_message_types :
    (∀ (T : Type) (m : WebSocketMessage T),
       m = { type := m.type, data := m.data, timestamp := m.timestamp,
             sessionId := m.sessionId }) ∧
    WebSocketMessageType.variants.Nodup ∧
    WebSocketMessageType.variants.length = 8 ∧
    (∀ t : WebSocketMessageType, t ∈ WebSocketMessageType.variants) :=
  ⟨fun T m => rfl, by decide⟩

/-- Claim C6: for every subscriber channel, while the attempt counter is
below the maximum the next automatic reconnect is scheduled after
reconnectDelay times 2 to the attempt count (so consecutive scheduled
delays double, and every scheduled delay is at most the delay of the
last permitted attempt); once the maximum attempt count is reached the
channel status is set to failed and no timer is armed; the manual
reconnect resets the attempt counter to zero. -/
theorem reconnect_backoff_policy :
    (∀ (chs : WsChannels) (ep : WsEndpoint),
       ((chs ep).attempts < maxReconnectAttempts →
         (scheduleReconnectAt chs ep).2 =
           some (reconnectDelay * 2 ^ (chs ep).attempts) ∧
         ((scheduleReconnectAt chs ep).1 ep).status = .reconnecting) ∧
       (maxReconnectAttempts ≤ (chs ep).attempts →
         (scheduleReconnectAt chs ep).2 = none ∧
         ((scheduleReconnectAt chs ep).1 ep).status = .failed) ∧
       ((manualReconnectAt chs ep) ep).attempts = 0) ∧
    (∀ (st : ReconnectState) (d : ℕ), (scheduleReconnect st).2 = some d →
       d ≤ reconnectDelay * 2 ^ (maxReconnectAttempts - 1)) ∧
    (∀ (st : ReconnectState), st.attempts + 1 < maxReconnectAttempts →
       ∀ (d : ℕ), (scheduleReconnect st).2 = some d →
         (scheduleReconnect (reconnectTimerFire st)).2 = some (2 * d)) := by
  refine ⟨fun chs ep => ⟨?_, ?_, ?_⟩, ?_, ?_⟩
  · intro h
    simp [scheduleReconnectAt, scheduleReconnect, Nat.not_le.mpr h]
  · intro h
    simp [scheduleReconnectAt, scheduleReconnect, h]
  · simp [manualReconnectAt, manualReconnect]
  · intro st d hd
    unfold scheduleReconnect at hd
    by_cases h : maxReconnectAttempts ≤ st.attempts
    · simp [h] at hd
    · simp [h] at hd
      have ha : st.attempts ≤ maxReconnectAttempts - 1 := by
        unfold maxReconnectAttempts at h ⊢; omega
      calc d = reconnectDelay * 2 ^ st.attempts := hd.symm
        _ ≤ reconnectDelay * 2 ^ (maxReconnectAttempts - 1) :=
            Nat.mul_le_mul_left _ (Nat.pow_le_pow_right (by norm_num) ha)
  · intro st hlt d hd
    unfold scheduleReconnect at hd ⊢
    simp only [reconnectTimerFire]
    have h1 : ¬ maxReconnectAttempts ≤ st.attempts := by omega
    have h2 : ¬ maxReconnectAttempts ≤ st.attempts + 1 := by omega
    simp [h1] at hd
    rw [if_neg h2]
    show some (reconnectDelay * 2 ^ (st.attempts + 1)) = some (2 * d)
    congr 1
    rw [← hd, pow_succ]
    ring

/-- Claim C6 witness: a telemetry channel with two failed attempts gets
its third automatic reconnect after 4000 ms; a channel map constantly at
five attempts is marked failed with no timer; the manual reconnect on it
goes back to zero attempts. -/
theorem reconnect_backoff_policy_witness :
    ((scheduleReconnectAt (fun _ => ⟨2, .disconnected⟩) .telemetry).2 =
      some (reconnectDelay * 2 ^ 2) ∧
     ((scheduleReconnectAt (fun _ => ⟨2, .disconnected⟩) .telemetry).1 .telemetry).status =
      .reconnecting) ∧
    ((scheduleReconnectAt (fun _ => ⟨5, .disconnected⟩) .alerts).2 = none ∧
     ((scheduleReconnectAt (fun _ => ⟨5, .disconnected⟩) .alerts).1 .alerts).status =
      .failed) ∧
    ((manualReconnectAt (fun _ => ⟨5, .failed⟩) .job) .job).attempts = 0 ∧
    (∀ (d : ℕ), (scheduleReconnect ⟨1, .disconnected⟩).2 = some d →
      (scheduleReconnect (reconnectTimerFire ⟨1, .disconnected⟩)).2 = some (2 * d)) :=
  ⟨(reconnect_backoff_policy.1 (fun _ => ⟨2, .disconnected⟩) .telemetry).1 (by decide),
   (reconnect_backoff_policy.1 (fun _ => ⟨5, .disconnected⟩) .alerts).2.1 (by decide),
   (reconnect_backoff_policy.1 (fun _ => ⟨5, .failed⟩) .job).2.2,
   reconnect_backoff_policy.2.2 ⟨1, .disconnected⟩ (by decide)⟩

/-- Claim C7: when the jog screen is enabled (robot connected and state
READY), a jog press builds exactly one request whose delta is the signed
direction times the selected distance; in the concrete scenario a jog of
the x axis in the positive direction by 0.01 at speed 0.1 produces the
single TCP request with delta 0.01, and the requested target pose from
the start pose [0, -0.5, 0.3, 0, 0, 0] is [0.01, -0.5, 0.3, 0, 0, 0]. -/
theorem jog_delta_single_transmission :
    (∀ (st : JogScreenState) (axis : String) (joint : Option ℕ) (s : ℤ),
       s = 1 ∨ s = -1 →
       st.robotConnected = true → st.robotState = "READY" →
       (handleJog st axis s joint).length = 1 ∧
       ∀ r ∈ handleJog st axis s joint, r.delta = (s : ℚ) * st.jogDistance) ∧
    (handleJog { robotConnected := true, robotState := "READY", jogMode := .tcp,
                 jogSpeed := 1/10, jogDistance := 1/100 } "x" 1 none =
      [{ mode := .tcp, speed := 1/10, frame := "base", axis := some "x",
         joint := none, delta := 1/100 }]) ∧
    jogTarget { x := 0, y := -1/2, z := 3/10, rx := 0, ry := 0, rz := 0 } "x" (1/100) =
      { x := 1/100, y := -1/2, z := 3/10, rx := 0, ry := 0, rz := 0 } := by
  refine ⟨?_, ?_, ?_⟩
  · intro st axis joint s _ hc hr
    unfold handleJog
    rw [if_neg (by simp [hc, hr])]
    cases st.jogMode <;> simp [mul_comm]
  · show handleJog _ "x" 1 none = _
    unfold handleJog
    norm_num
  · unfold jogTarget
    norm_num

/-- Claim C7 witness: the general part instantiated at a concrete
enabled screen state, a negative-direction y jog. -/
theorem jog_delta_single_transmission_witness :
    (handleJog { robotConnected := true, robotState := "READY", jogMode := .tcp,
                 jogSpeed := 1/10, jogDistance := 1/100 } "y" (-1) none).length = 1 ∧
    ∀ r ∈ handleJog { robotConnected := true, robotState := "READY", jogMode := .tcp,
                      jogSpeed := 1/10, jogDistance := 1/100 } "y" (-1) none,
      r.delta = ((-1 : ℤ) : ℚ) * (1/100) :=
  jog_delta_single_transmission.1
    { robotConnected := true, robotState := "READY", jogMode := .tcp,
      jogSpeed := 1/10, jogDistance := 1/100 } "y" none (-1) (Or.inr rfl) rfl rfl

/-- Claim C8: every robot-control action of the kiosk store returns
false, issues no HTTP request, and leaves the store unchanged when no
session id is held. -/
theorem robot_actions_require_session :
    ∀ (st : KioskStore), st.sessionId = none →
    ∀ (hostname : Option String) (port : Option ℚ) (out : FetchOutcome)
      (jogReq : JogRequest) (fromSq toSq : String) (promo : Option String),
      connectRobot hostname port out st = (false, st, []) ∧
      disconnectRobot out st = (false, st, []) ∧
      homeRobot out st = (false, st, []) ∧
      jogRobot jogReq out st = (false, st, []) ∧
      stopRobot out st = (false, st, []) ∧
      emergencyStop out st = (false, st, []) ∧
      chessMove fromSq toSq promo out st = (false, st, []) := by
  intro st h hostname port out jogReq fromSq toSq promo
  unfold connectRobot disconnectRobot homeRobot jogRobot stopRobot emergencyStop chessMove
  rw [h]
  exact ⟨rfl, rfl, rfl, rfl, rfl, rfl, rfl⟩

/-- Claim C8 witness: all seven actions on the initial store, which
holds no session id. -/
theorem robot_actions_require_session_witness :
    connectRobot none none .thrown initialStore = (false, initialStore, []) ∧
    disconnectRobot .thrown initialStore = (false, initialStore, []) ∧
    homeRobot .thrown initialStore = (false, initialStore, []) ∧
    jogRobot { mode := .tcp, axis := .x, direction := .positive, distance := 1/100,
               speed := 1/10, acceleration := none } .thrown initialStore =
      (false, initialStore, []) ∧
    stopRobot .thrown initialStore = (false, initialStore, []) ∧
    emergencyStop .thrown initialStore = (false, initialStore, []) ∧
    chessMove "e2" "e4" none .thrown initialStore = (false, initialStore, []) :=
  robot_actions_require_session initialStore rfl none none .thrown
    { mode := .tcp, axis := .x, direction := .positive, distance := 1/100,
      speed := 1/10, acceleration := none } "e2" "e4" none

/-- Claim C9 counterexample: with the operator pin reconfigured to equal
the default supervisor pin (a store state reachable by updateSettings),
unlocking with a pin equal to the supervisor pin succeeds but leaves
isSupervisor false, because the operator comparison is made first; so
the claim that a pin equal to supervisorPin always sets
isSupervisor to true fails. -/
theorem unlock_supervisor_branch_counterexample :
    (updateSettings
        { security := some { DEFAULT_SECURITY_CONFIG with operatorPin := "5678" } }
        initialStore).settings.security.supervisorPin = "5678" ∧
    (unlock "5678"
      (updateSettings
        { security := some { DEFAULT_SECURITY_CONFIG with operatorPin := "5678" } }
        initialStore)).1 = true ∧
    (unlock "5678"
      (updateSettings
        { security := some { DEFAULT_SECURITY_CONFIG with operatorPin := "5678" } }
        initialStore)).2.isSupervisor = false :=
  ⟨rfl, rfl, rfl⟩

/-- Claim C9 (amended): unlock(pin) returns true iff pin equals the
configured operatorPin or supervisorPin; on a pin equal to operatorPin
it clears both the lock and the supervisor flag; on a pin equal to
supervisorPin but different from operatorPin it clears the lock and sets
the supervisor flag; on any other pin it returns false and leaves the
store unchanged. -/
theorem unlock_pin_characterization :
    ∀ (st : KioskStore) (pin : String),
      ((unlock pin st).1 = true ↔
        pin = st.settings.security.operatorPin ∨
        pin = st.settings.security.supervisorPin) ∧
      (pin = st.settings.security.operatorPin →
        (unlock pin st).2 = { st with isLocked := false, isSupervisor := false }) ∧
      (pin = st.settings.security.supervisorPin →
        pin ≠ st.settings.security.operatorPin →
        (unlock pin st).2 = { st with isLocked := false, isSupervisor := true }) ∧
      (pin ≠ st.settings.security.operatorPin →
        pin ≠ st.settings.security.supervisorPin →
        unlock pin st = (false, st)) := by
  intro st pin
  refine ⟨?_, ?_, ?_, ?_⟩
  · unfold unlock
    by_cases h1 : pin = st.settings.security.operatorPin
    · simp [h1]
    · by_cases h2 : pin = st.settings.security.supervisorPin
      · rw [if_neg h1, if_pos h2]
        simp [h2]
      · rw [if_neg h1, if_neg h2]
        simp [h1, h2]
  · intro h1
    unfold unlock
    simp [h1]
  · intro h2 h1
    unfold unlock
    rw [if_neg h1, if_pos h2]
  · intro h1 h2
    unfold unlock
    rw [if_neg h1, if_neg h2]

/-- Claim C9 witness: the three branches on the initial store with the
default pins 1234 (operator), 5678 (supervisor) and a wrong pin. -/
theorem unlock_pin_characterization_witness :
    (unlock "1234" initialStore).2 =
      { initialStore with isLocked := false, isSupervisor := false } ∧
    (unlock "5678" initialStore).2 =
      { initialStore with isLocked := false, isSupervisor := true } ∧
    unlock "0000" initialStore = (false, initialStore) :=
  ⟨(unlock_pin_characterization initialStore "1234").2.1 rfl,
   (unlock_pin_characterization initialStore "5678").2.2.1 rfl (by decide),
   (unlock_pin_characterization initialStore "0000").2.2.2 (by decide) (by decide)⟩

/-- Claim C10: after every updateTelemetry call the store mirrors the
sample: robotState equals the sample robotState, robotConnected equals
the sample isRobotConnected, and the cached telemetry is the sample. -/
theorem updateTelemetry_mirrors_sample :
    ∀ (st : KioskStore) (t : RobotTelemetry),
      (updateTelemetry t st).robotState = t.robotState ∧
      (updateTelemetry t st).robotConnected = t.isRobotConnected ∧
      (updateTelemetry t st).telemetry = some t :=
  fun _ _ => ⟨rfl, rfl, rfl⟩
